import Mathlib

/-!
Verification of the gin-goll load-limiter middleware (`gin_goll.go`).

The middleware is embedded shallowly as pure Lean functions.  A request
handler is modelled as a function from a request context to the list of
primitive actions the middleware performs on that request, in order:

* `Event.next`                : `c.Next()` — continue the handler chain;
* `Event.header n v`          : `c.Header(n, v)` — set a response header;
* `Event.abortWithStatus s`   : `c.AbortWithStatus(s)`;
* `Event.panicked e`          : a Go `panic(e)` raised by the middleware;
* `Event.tenantKeyFuncCalled` : instrumentation marker — the user-supplied
  `tenantKeyFunc` was invoked (emitted exactly where the Go source calls it);
* `Event.submitted k l`       : instrumentation marker — the limiter's
  `Submit(k, l)` was invoked (emitted exactly where the Go source calls it).

User-supplied handlers (accept / abort / error callbacks and the
tenant-key function) are opaque collaborators: they are modelled as
arbitrary functions producing their own event lists, so theorems about the
middleware quantify over every possible behaviour of those callbacks.
The external limiter is modelled through its `Submit` contract only, as a
function `String → Nat → Except GoError SubmitResult` (Go returns
`(SubmitResult, error)` and the caller reads the result only when the
error is nil, which is exactly `Except`).
-/

namespace GinGoll

/-- A Go `error` value: either `errors.New(msg)` or a `fmt.Errorf("...: %w", err)`
wrapping of an inner error (as produced at `gin_goll.go:71`). -/
inductive GoError where
  | new (msg : String)
  | wrapped (msg : String) (inner : GoError)
deriving DecidableEq, Repr

/-- Model of `goll.SubmitResult` with the fields the middleware reads:
`Accepted`, `RetryInAvailable`, and `RetryIn` (a Go `time.Duration`,
i.e. an `int64` count of nanoseconds, modelled as `Int`). -/
structure SubmitResult where
  Accepted : Bool
  RetryInAvailable : Bool
  RetryIn : Int
deriving DecidableEq, Repr

/-- Go's `time.Duration.Milliseconds()`: nanoseconds divided by 10^6 with
truncation toward zero (`Int.div` matches Go's integer division). -/
def durationMilliseconds (d : Int) : Int :=
  Int.tdiv d 1000000

/-- An opaque request context (`*gin.Context`); the middleware never
inspects it, it only threads it through to callbacks. -/
structure GinContext where
  id : Nat
deriving DecidableEq, Repr

/-- A primitive action observable on a request, as described in the
module docstring above. -/
inductive Event where
  | next
  | header (name value : String)
  | abortWithStatus (code : Nat)
  | panicked (err : GoError)
  | tenantKeyFuncCalled
  | submitted (tenantKey : String) (load : Nat)
deriving DecidableEq, Repr

/-- Model of the `goll.LoadLimiter` collaborator through its
`Submit(tenantKey, load)` contract. -/
abbrev LoadLimiter := String → Nat → Except GoError SubmitResult

/-- The `Config` struct (`gin_goll.go:11-19`).  Nil-able Go fields
(the limiter interface and the function-valued fields) become `Option`s. -/
structure Config where
  Limiter : Option LoadLimiter
  DefaultRouteLoad : Nat
  TenantKey : String
  TenantKeyFunc : Option (GinContext → Except GoError String)
  AcceptHandler : Option (GinContext → SubmitResult → List Event)
  AbortHandler : Option (GinContext → SubmitResult → List Event)
  ErrorHandler : Option (GinContext → GoError → List Event)

/-- The `loadLimiterMiddleware` struct (`gin_goll.go:21-29`). -/
structure loadLimiterMiddleware where
  limiter : Option LoadLimiter
  load : Nat
  tenantKey : String
  tenantKeyFunc : Option (GinContext → Except GoError String)
  acceptHandler : Option (GinContext → SubmitResult → List Event)
  abortHandler : Option (GinContext → SubmitResult → List Event)
  errorHandler : Option (GinContext → GoError → List Event)

/-- `NewLimiterMiddleware` (`gin_goll.go:31-41`). -/
def NewLimiterMiddleware (config : Config) : loadLimiterMiddleware :=
  { limiter := config.Limiter
    load := config.DefaultRouteLoad
    acceptHandler := config.AcceptHandler
    abortHandler := config.AbortHandler
    errorHandler := config.ErrorHandler
    tenantKey := config.TenantKey
    tenantKeyFunc := config.TenantKeyFunc }

/-- `clone` (`gin_goll.go:43-53`): allocate a new instance copying every
field. -/
def loadLimiterMiddleware.clone (inst : loadLimiterMiddleware) : loadLimiterMiddleware :=
  { limiter := inst.limiter
    load := inst.load
    acceptHandler := inst.acceptHandler
    abortHandler := inst.abortHandler
    errorHandler := inst.errorHandler
    tenantKey := inst.tenantKey
    tenantKeyFunc := inst.tenantKeyFunc }

/-- `handleError` (`gin_goll.go:65-73`): run the user error handler if
any; otherwise panic with a wrapping of the original error. -/
def handleError (inst : loadLimiterMiddleware) (c : GinContext) (err : GoError) : List Event :=
  match inst.errorHandler with
  | some h => h c err
  | none => [Event.panicked (GoError.wrapped "error submitting load request: " err)]

/-- `handleRejection` (`gin_goll.go:75-88`): run the user abort handler if
any; otherwise send HTTP 429 with an `X-Retry-In` header when available. -/
def handleRejection (inst : loadLimiterMiddleware) (c : GinContext) (res : SubmitResult) : List Event :=
  match inst.abortHandler with
  | some h => h c res
  | none =>
    (if res.RetryInAvailable then
      [Event.header "X-Retry-In" (toString (durationMilliseconds res.RetryIn))]
    else []) ++ [Event.abortWithStatus 429]

/-- `handleAccept` (`gin_goll.go:90-97`): run the user accept handler if
any; otherwise continue the chain. -/
def handleAccept (inst : loadLimiterMiddleware) (c : GinContext) (res : SubmitResult) : List Event :=
  match inst.acceptHandler with
  | some h => h c res
  | none => [Event.next]

/-- `effectiveTenantKey` (`gin_goll.go:99-104`).  The first component
records whether the user tenant-key function was invoked; the second is
its `(string, error)` result, or the fixed key with a nil error. -/
def effectiveTenantKey (inst : loadLimiterMiddleware) (c : GinContext) :
    List Event × Except GoError String :=
  match inst.tenantKeyFunc with
  | some f => ([Event.tenantKeyFuncCalled], f c)
  | none => ([], Except.ok inst.tenantKey)

/-- The anonymous per-request closure returned by `routeLoadLimiter`
(`gin_goll.go:112-148`).  A nil limiter dereference (impossible for a
validated instance) models Go's nil-interface-call runtime panic. -/
def requestHandler (inst : loadLimiterMiddleware) (c : GinContext) : List Event :=
  if inst.load ≤ 0 then
    [Event.next]
  else
    match effectiveTenantKey inst c with
    | (resolveEvents, Except.error err) => resolveEvents ++ handleError inst c err
    | (resolveEvents, Except.ok tenantKey) =>
      match inst.limiter with
      | none =>
        resolveEvents ++
          [Event.panicked (GoError.new "runtime error: invalid memory address or nil pointer dereference")]
      | some submit =>
        match submit tenantKey inst.load with
        | Except.error err =>
          resolveEvents ++ [Event.submitted tenantKey inst.load] ++ handleError inst c err
        | Except.ok res =>
          if !res.Accepted then
            resolveEvents ++ [Event.submitted tenantKey inst.load] ++ handleRejection inst c res
          else
            resolveEvents ++ [Event.submitted tenantKey inst.load] ++ handleAccept inst c res

/-- `validateConfig` (`gin_goll.go:151-165`).  The argument is an
`Option` because the Go receiver is a pointer that may be nil. -/
def validateConfig (config : Option loadLimiterMiddleware) : Option GoError :=
  match config with
  | none => some (GoError.new "nil config")
  | some config =>
    if config.limiter.isNone then
      some (GoError.new "limiter is required")
    else if config.tenantKey = "" ∧ config.tenantKeyFunc.isNone then
      some (GoError.new "one of TenantKey or TenantKeyFunc is required")
    else if config.tenantKey ≠ "" ∧ ¬ config.tenantKeyFunc.isNone then
      some (GoError.new "only one of TenantKey or TenantKeyFunc is required")
    else
      none

/-- `routeLoadLimiter` (`gin_goll.go:106-149`): validate the
configuration, panicking (modelled as `Except.error`, since the panic
happens at installation time, outside any request) on a validation error,
otherwise return the per-request closure.  The `none, none` case is
unreachable (`validateConfig none` is always `some`); it repeats the nil
error for exhaustiveness. -/
def routeLoadLimiter (instancePtr : Option loadLimiterMiddleware) :
    Except GoError (GinContext → List Event) :=
  match instancePtr, validateConfig instancePtr with
  | _, some err => Except.error err
  | none, none => Except.error (GoError.new "nil config")
  | some inst, none => Except.ok (requestHandler inst)

/-- `Default` (`gin_goll.go:55-57`). -/
def loadLimiterMiddleware.Default (inst : loadLimiterMiddleware) :
    Except GoError (GinContext → List Event) :=
  routeLoadLimiter (some inst)

/-- `WithLoad` (`gin_goll.go:59-63`): clone, overwrite `load`, install. -/
def loadLimiterMiddleware.WithLoad (inst : loadLimiterMiddleware) (load : Nat) :
    Except GoError (GinContext → List Event) :=
  ({ inst.clone with load := load }).Default

/-- The three per-request outcomes of the admission pipeline. -/
inductive Outcome where
  | accepted (res : SubmitResult)
  | rejected (res : SubmitResult)
  | errored (err : GoError)
deriving DecidableEq, Repr

/-- Which of the three outcomes a request is routed to (`none` when
admission is skipped because the load is zero, or on the unreachable
nil-limiter dereference). -/
def decision (inst : loadLimiterMiddleware) (c : GinContext) : Option Outcome :=
  if inst.load ≤ 0 then none
  else
    match effectiveTenantKey inst c with
    | (_, Except.error err) => some (Outcome.errored err)
    | (_, Except.ok tenantKey) =>
      match inst.limiter with
      | none => none
      | some submit =>
        match submit tenantKey inst.load with
        | Except.error err => some (Outcome.errored err)
        | Except.ok res =>
          if !res.Accepted then some (Outcome.rejected res)
          else some (Outcome.accepted res)

/-- The instrumentation events the middleware emits before dispatching to
one of the three outcome handlers: the tenant-resolution marker, then the
`Submit` marker when resolution succeeded. -/
def preEvents (inst : loadLimiterMiddleware) (c : GinContext) : List Event :=
  match effectiveTenantKey inst c with
  | (resolveEvents, Except.error _) => resolveEvents
  | (resolveEvents, Except.ok tenantKey) =>
    resolveEvents ++ [Event.submitted tenantKey inst.load]

/-- The events of the outcome handler a request is dispatched to. -/
def dispatchEvents (inst : loadLimiterMiddleware) (c : GinContext) : Outcome → List Event
  | Outcome.accepted res => handleAccept inst c res
  | Outcome.rejected res => handleRejection inst c res
  | Outcome.errored err => handleError inst c err

/-- A concrete request context used to exercise the pipeline. -/
def ctxW : GinContext := ⟨0⟩

/-- A limiter that accepts every submission. -/
def acceptLimiter : LoadLimiter := fun _ _ => Except.ok ⟨true, false, 0⟩

/-- A limiter that rejects every submission, advertising a 5ms retry. -/
def rejectLimiter : LoadLimiter := fun _ _ => Except.ok ⟨false, true, 5000000⟩

/-- A limiter whose submission fails. -/
def failLimiter : LoadLimiter := fun _ _ => Except.error (GoError.new "sync failure")

/-- A tenant-key function returning the empty string with a nil error. -/
def emptyKeyFn : GinContext → Except GoError String := fun _ => Except.ok ""

/-- A tenant-key function that fails. -/
def failKeyFn : GinContext → Except GoError String := fun _ => Except.error (GoError.new "boom")

/-- A well-formed instance: fixed tenant key, load 1, default handlers. -/
def instW : loadLimiterMiddleware :=
  { limiter := some acceptLimiter, load := 1, tenantKey := "tenant-a",
    tenantKeyFunc := none, acceptHandler := none, abortHandler := none,
    errorHandler := none }

/-- `instW` specialized to load 0. -/
def instZ : loadLimiterMiddleware := { instW with load := 0 }

/-- `instW` with the rejecting limiter. -/
def instR : loadLimiterMiddleware := { instW with limiter := some rejectLimiter }

/-- `instW` with the failing limiter. -/
def instF : loadLimiterMiddleware := { instW with limiter := some failLimiter }

/-- An instance whose tenant-key function fails. -/
def instE : loadLimiterMiddleware :=
  { instW with load := 2, tenantKey := "", tenantKeyFunc := some failKeyFn }

/-- An instance whose tenant-key function returns the empty string. -/
def instK : loadLimiterMiddleware :=
  { instW with load := 3, tenantKey := "", tenantKeyFunc := some emptyKeyFn }

/-- A misconfigured instance: empty fixed key and no key function. -/
def instN : loadLimiterMiddleware := { instW with tenantKey := "" }

/-- A `Config` with zero default route load. -/
def cfgW : Config :=
  { Limiter := some acceptLimiter, DefaultRouteLoad := 0, TenantKey := "tenant-a",
    TenantKeyFunc := none, AcceptHandler := none, AbortHandler := none,
    ErrorHandler := none }

/-- Every instrumentation event preceding the dispatch is a marker: the
tenant-resolution marker or a `Submit` marker.  In particular the
middleware performs no chain-control action (`next`, `header`,
`abortWithStatus`, `panicked`) before dispatching to an outcome handler. -/
theorem preEvents_markers (inst : loadLimiterMiddleware) (c : GinContext) :
    ∀ e ∈ preEvents inst c,
      e = Event.tenantKeyFuncCalled ∨ ∃ k l, e = Event.submitted k l := by
  intro e he
  rcases hf : inst.tenantKeyFunc with _ | f
  · simp [preEvents, effectiveTenantKey, hf] at he
    exact Or.inr ⟨inst.tenantKey, inst.load, he⟩
  · rcases hr : f c with err | k <;>
      simp [preEvents, effectiveTenantKey, hf, hr] at he
    · exact Or.inl he
    · rcases he with he | he
      · exact Or.inl he
      · exact Or.inr ⟨k, inst.load, he⟩

/-- Shared decomposition: for a request on an instance with a limiter and
positive load, the pipeline routes the request to exactly one outcome,
and the full trace is the instrumentation markers followed by that
outcome's handler — nothing before, between, or after. -/
theorem requestHandler_decomp (inst : loadLimiterMiddleware) (c : GinContext)
    (submit : LoadLimiter) (hl : 0 < inst.load) (hs : inst.limiter = some submit) :
    ∃ o : Outcome, decision inst c = some o ∧
      requestHandler inst c = preEvents inst c ++ dispatchEvents inst c o := by
  have hload : ¬ inst.load ≤ 0 := by omega
  unfold requestHandler decision preEvents
  rw [if_neg hload, if_neg hload]
  rcases hetk : effectiveTenantKey inst c with ⟨ev, res⟩
  rcases res with err | tenantKey
  · exact ⟨Outcome.errored err, rfl, rfl⟩
  · rw [hs]
    rcases hsub : submit tenantKey inst.load with err | r
    · refine ⟨Outcome.errored err, ?_, ?_⟩ <;> simp [hsub, dispatchEvents]
    · rcases hacc : r.Accepted with _ | _
      · refine ⟨Outcome.rejected r, ?_, ?_⟩ <;> simp [hsub, hacc, dispatchEvents]
      · refine ⟨Outcome.accepted r, ?_, ?_⟩ <;> simp [hsub, hacc, dispatchEvents]

/-- C1: when `Submit` returns a nil error, the handler dispatches on
`result.Accepted`: if `Accepted` is true and a custom accept handler is
configured, the trace is exactly the pipeline markers followed by that
handler applied to the request context and the `SubmitResult` — nothing
else; if `Accepted` is true and no accept handler is configured, the
chain continues unconditionally via `Next`; if `Accepted` is false, the
Reject path (`handleRejection`) runs. -/
theorem accept_reject_dispatch (inst : loadLimiterMiddleware) (c : GinContext)
    (submit : LoadLimiter) (tenantKey : String) (res : SubmitResult)
    (hl : 0 < inst.load) (hs : inst.limiter = some submit)
    (hk : (effectiveTenantKey inst c).2 = Except.ok tenantKey)
    (hr : submit tenantKey inst.load = Except.ok res) :
    (res.Accepted = true → ∀ h, inst.acceptHandler = some h →
        requestHandler inst c = preEvents inst c ++ h c res) ∧
    (res.Accepted = true → inst.acceptHandler = none →
        requestHandler inst c = preEvents inst c ++ [Event.next]) ∧
    (res.Accepted = false →
        requestHandler inst c = preEvents inst c ++ handleRejection inst c res) := by
  have hload : ¬ inst.load ≤ 0 := by omega
  obtain ⟨ev, hetk⟩ : ∃ ev, effectiveTenantKey inst c = (ev, Except.ok tenantKey) :=
    ⟨(effectiveTenantKey inst c).1, by rw [← hk]⟩
  refine ⟨?_, ?_, ?_⟩
  · intro hacc h hh
    simp [requestHandler, preEvents, hetk, hs, hr, hacc, hload, handleAccept, hh]
  · intro hacc hh
    simp [requestHandler, preEvents, hetk, hs, hr, hacc, hload, handleAccept, hh]
  · intro hacc
    simp [requestHandler, preEvents, hetk, hs, hr, hacc, hload]

/-- C2: for a request on an installed instance with positive load (and
hence a present limiter), exactly one of the three outcomes fires: there
is a unique outcome, the full trace is the instrumentation markers
followed by that one outcome's handling and nothing after it, and the
markers themselves contain no chain-control action. -/
theorem exactly_one_outcome (inst : loadLimiterMiddleware) (c : GinContext)
    (submit : LoadLimiter) (hl : 0 < inst.load) (hs : inst.limiter = some submit) :
    ∃ o : Outcome, decision inst c = some o ∧
      requestHandler inst c = preEvents inst c ++ dispatchEvents inst c o ∧
      (∀ o2 : Outcome, decision inst c = some o2 → o2 = o) ∧
      (∀ e ∈ preEvents inst c,
        e = Event.tenantKeyFuncCalled ∨ ∃ k l, e = Event.submitted k l) := by
  obtain ⟨o, ho, htrace⟩ := requestHandler_decomp inst c submit hl hs
  refine ⟨o, ho, htrace, ?_, preEvents_markers inst c⟩
  intro o2 h2
  rw [ho] at h2
  exact (Option.some.inj h2).symm

/-- Installing a non-nil instance either fails with the validation error
or returns its per-request closure. -/
theorem routeLoadLimiter_some (m : loadLimiterMiddleware) :
    routeLoadLimiter (some m) =
      match validateConfig (some m) with
      | some err => Except.error err
      | none => Except.ok (requestHandler m) := by
  rcases hv : validateConfig (some m) with _ | e <;> simp [routeLoadLimiter, hv]

/-- Installation succeeds exactly when validation passes. -/
theorem routeLoadLimiter_ok_iff (m : loadLimiterMiddleware) :
    (∃ hf, routeLoadLimiter (some m) = Except.ok hf) ↔
      validateConfig (some m) = none := by
  rcases hv : validateConfig (some m) with _ | e <;>
    simp [routeLoadLimiter_some, hv]

/-- Validation passes exactly when a limiter is present and exactly one
tenant-key source is specified (a fixed key being "specified" when
non-empty, a key function when non-nil). -/
theorem validateConfig_none_iff (m : loadLimiterMiddleware) :
    validateConfig (some m) = none ↔
      ¬(m.limiter = none ∨
        (m.tenantKey = "" ∧ m.tenantKeyFunc = none) ∨
        (m.tenantKey ≠ "" ∧ m.tenantKeyFunc ≠ none)) := by
  rcases hL : m.limiter with _ | L <;>
    rcases hF : m.tenantKeyFunc with _ | F <;>
      by_cases hK : m.tenantKey = "" <;>
        simp [validateConfig, hL, hF, hK]

/-- Validation never reads the `load` field. -/
theorem validateConfig_load_irrel (m : loadLimiterMiddleware) (n : Nat) :
    validateConfig (some { m with load := n }) = validateConfig (some m) := rfl

/-- C3: installing via `Default` (or `WithLoad`, for any load) panics at
installation time if and only if the limiter is missing, or neither of
`TenantKey`/`TenantKeyFunc` is specified, or both are; every other
configuration installs successfully, and the installed handler is the
bare per-request closure, which performs no configuration check. -/
theorem installation_fails_iff_misconfigured (inst : loadLimiterMiddleware) :
    ((∃ hf, inst.Default = Except.ok hf) ↔
      ¬(inst.limiter = none ∨
        (inst.tenantKey = "" ∧ inst.tenantKeyFunc = none) ∨
        (inst.tenantKey ≠ "" ∧ inst.tenantKeyFunc ≠ none))) ∧
    (∀ n, (∃ hf, inst.WithLoad n = Except.ok hf) ↔
      (∃ hf, inst.Default = Except.ok hf)) ∧
    (∀ hf, inst.Default = Except.ok hf → hf = requestHandler inst) := by
  refine ⟨?_, ?_, ?_⟩
  · rw [show inst.Default = routeLoadLimiter (some inst) from rfl,
      routeLoadLimiter_ok_iff, validateConfig_none_iff]
  · intro n
    rw [show inst.WithLoad n = routeLoadLimiter (some { inst with load := n }) from rfl,
      show inst.Default = routeLoadLimiter (some inst) from rfl,
      routeLoadLimiter_ok_iff, routeLoadLimiter_ok_iff, validateConfig_load_irrel]
  · intro hf hok
    rcases hv : validateConfig (some inst) with _ | e <;>
      rw [show inst.Default = routeLoadLimiter (some inst) from rfl,
        routeLoadLimiter_some, hv] at hok
    · exact (Except.ok.inj hok).symm
    · cases hok

/-- The instrumentation emitted by tenant resolution is at most the
single resolution marker. -/
theorem effectiveTenantKey_fst (inst : loadLimiterMiddleware) (c : GinContext) :
    (effectiveTenantKey inst c).1 = [] ∨
      (effectiveTenantKey inst c).1 = [Event.tenantKeyFuncCalled] := by
  rcases hf : inst.tenantKeyFunc with _ | f <;> simp [effectiveTenantKey, hf]

/-- C4: on an instance whose configured load is 0 — from
`DefaultRouteLoad` via `NewLimiterMiddleware`, or produced by
`WithLoad 0` — every request continues the chain immediately; the
limiter's `Submit` is never invoked and neither is the tenant-key
function. -/
theorem zero_load_bypasses_limiter (inst : loadLimiterMiddleware) (c : GinContext)
    (cfg : Config) :
    (inst.load = 0 →
      requestHandler inst c = [Event.next] ∧
      (∀ k l, Event.submitted k l ∉ requestHandler inst c) ∧
      Event.tenantKeyFuncCalled ∉ requestHandler inst c) ∧
    ((NewLimiterMiddleware cfg).load = cfg.DefaultRouteLoad) ∧
    (∀ hf, inst.WithLoad 0 = Except.ok hf →
      hf c = [Event.next] ∧
      (∀ k l, Event.submitted k l ∉ hf c) ∧
      Event.tenantKeyFuncCalled ∉ hf c) := by
  have key : ∀ m : loadLimiterMiddleware, m.load = 0 → ∀ c2 : GinContext,
      requestHandler m c2 = [Event.next] ∧
      (∀ k l, Event.submitted k l ∉ requestHandler m c2) ∧
      Event.tenantKeyFuncCalled ∉ requestHandler m c2 := by
    intro m hz c2
    have h1 : requestHandler m c2 = [Event.next] := by simp [requestHandler, hz]
    refine ⟨h1, ?_, ?_⟩ <;> simp [h1]
  refine ⟨fun hz => key inst hz c, rfl, ?_⟩
  intro hf hok
  rcases hv : validateConfig (some { inst with load := 0 }) with _ | e <;>
    rw [show inst.WithLoad 0 = routeLoadLimiter (some { inst with load := 0 }) from rfl,
      routeLoadLimiter_some, hv] at hok
  · rw [← Except.ok.inj hok]
    exact key _ rfl c
  · cases hok

/-- C5: with positive load, a tenant-resolution failure or a `Submit`
failure routes the request to the Error path (`handleError`) and never
to the Reject path; on a resolution failure no `Submit` marker is ever
emitted; and with a fixed `TenantKey` (no tenant-key function)
resolution always succeeds with the fixed key, so the resolution-error
route is unreachable. -/
theorem failures_route_to_error_path (inst : loadLimiterMiddleware) (c : GinContext)
    (submit : LoadLimiter) (e : GoError) (tenantKey : String)
    (hl : 0 < inst.load) :
    ((effectiveTenantKey inst c).2 = Except.error e →
      requestHandler inst c = (effectiveTenantKey inst c).1 ++ handleError inst c e ∧
      decision inst c = some (Outcome.errored e) ∧
      (∀ k l, Event.submitted k l ∉ (effectiveTenantKey inst c).1) ∧
      (∀ r, decision inst c ≠ some (Outcome.rejected r))) ∧
    (inst.limiter = some submit →
      (effectiveTenantKey inst c).2 = Except.ok tenantKey →
      submit tenantKey inst.load = Except.error e →
      requestHandler inst c = preEvents inst c ++ handleError inst c e ∧
      decision inst c = some (Outcome.errored e) ∧
      (∀ r, decision inst c ≠ some (Outcome.rejected r))) ∧
    (inst.tenantKeyFunc = none →
      effectiveTenantKey inst c = ([], Except.ok inst.tenantKey)) := by
  have hload : ¬ inst.load ≤ 0 := by omega
  refine ⟨?_, ?_, ?_⟩
  · intro he
    obtain ⟨ev, hetk⟩ : ∃ ev, effectiveTenantKey inst c = (ev, Except.error e) :=
      ⟨(effectiveTenantKey inst c).1, by rw [← he]⟩
    have hdec : decision inst c = some (Outcome.errored e) := by
      simp [decision, hetk, hload]
    refine ⟨?_, hdec, ?_, ?_⟩
    · simp [requestHandler, hetk, hload]
    · intro k l
      rcases effectiveTenantKey_fst inst c with h1 | h1 <;> simp [h1]
    · intro r
      rw [hdec]
      simp
  · intro hs hk hsub
    obtain ⟨ev, hetk⟩ : ∃ ev, effectiveTenantKey inst c = (ev, Except.ok tenantKey) :=
      ⟨(effectiveTenantKey inst c).1, by rw [← hk]⟩
    have hdec : decision inst c = some (Outcome.errored e) := by
      simp [decision, hetk, hs, hsub, hload]
    refine ⟨?_, hdec, ?_⟩
    · simp [requestHandler, preEvents, hetk, hs, hsub, hload]
    · intro r
      rw [hdec]
      simp
  · intro hfn
    simp [effectiveTenantKey, hfn]

/-- C6: a rejected request (nil `Submit` error, `Accepted = false`) on an
instance with no custom abort handler is aborted with HTTP status 429,
and the response carries an `X-Retry-In` header — equal to `RetryIn` in
milliseconds — exactly when `RetryInAvailable` is true. -/
theorem default_reject_response (inst : loadLimiterMiddleware) (c : GinContext)
    (submit : LoadLimiter) (tenantKey : String) (res : SubmitResult)
    (hl : 0 < inst.load) (hs : inst.limiter = some submit)
    (hk : (effectiveTenantKey inst c).2 = Except.ok tenantKey)
    (hr : submit tenantKey inst.load = Except.ok res)
    (hacc : res.Accepted = false) (hab : inst.abortHandler = none) :
    (res.RetryInAvailable = true →
      requestHandler inst c = preEvents inst c ++
        [Event.header "X-Retry-In" (toString (durationMilliseconds res.RetryIn)),
         Event.abortWithStatus 429]) ∧
    (res.RetryInAvailable = false →
      requestHandler inst c = preEvents inst c ++ [Event.abortWithStatus 429]) ∧
    ((∃ v, Event.header "X-Retry-In" v ∈ requestHandler inst c) ↔
      res.RetryInAvailable = true) := by
  have hload : ¬ inst.load ≤ 0 := by omega
  obtain ⟨ev, hetk⟩ : ∃ ev, effectiveTenantKey inst c = (ev, Except.ok tenantKey) :=
    ⟨(effectiveTenantKey inst c).1, by rw [← hk]⟩
  have hmain : requestHandler inst c = preEvents inst c ++ handleRejection inst c res := by
    simp [requestHandler, preEvents, hetk, hs, hr, hacc, hload]
  refine ⟨?_, ?_, ?_, ?_⟩
  · intro hri
    rw [hmain]
    simp [handleRejection, hab, hri]
  · intro hri
    rw [hmain]
    simp [handleRejection, hab, hri]
  · rintro ⟨v, hv⟩
    by_contra hfalse
    rw [Bool.not_eq_true] at hfalse
    rw [hmain, List.mem_append] at hv
    rcases hv with hv | hv
    · rcases preEvents_markers inst c _ hv with h1 | ⟨k, l, h1⟩ <;> simp at h1
    · simp [handleRejection, hab, hfalse] at hv
  · intro hri
    refine ⟨toString (durationMilliseconds res.RetryIn), ?_⟩
    rw [hmain]
    simp [handleRejection, hab, hri]

/-- C7: on a per-request error (resolution or submission failure), a
configured custom error handler receives the request context and the
error and the middleware itself raises no panic; with no error handler
configured, the middleware panics with an error wrapping the original
one. -/
theorem error_handler_contract (inst : loadLimiterMiddleware) (c : GinContext)
    (submit : LoadLimiter) (e : GoError)
    (hl : 0 < inst.load) (hs : inst.limiter = some submit)
    (hd : decision inst c = some (Outcome.errored e)) :
    (∀ h, inst.errorHandler = some h →
      requestHandler inst c = preEvents inst c ++ h c e ∧
      (∀ x, Event.panicked x ∉ preEvents inst c)) ∧
    (inst.errorHandler = none →
      requestHandler inst c = preEvents inst c ++
        [Event.panicked (GoError.wrapped "error submitting load request: " e)]) := by
  obtain ⟨o, ho, htrace⟩ := requestHandler_decomp inst c submit hl hs
  rw [ho] at hd
  have hoe : o = Outcome.errored e := Option.some.inj hd
  subst hoe
  have hnopanic : ∀ x, Event.panicked x ∉ preEvents inst c := by
    intro x hx
    rcases preEvents_markers inst c _ hx with h1 | ⟨k, l, h1⟩ <;> simp at h1
  refine ⟨?_, ?_⟩
  · intro h hh
    refine ⟨?_, hnopanic⟩
    rw [htrace]
    simp [dispatchEvents, handleError, hh]
  · intro hh
    rw [htrace]
    simp [dispatchEvents, handleError, hh]

/-- C8: `WithLoad n` binds its handler to a new instance that is a
field-wise copy of the parent with only `load` replaced by `n`: `clone`
changes nothing, every non-load field of the specialized instance equals
the parent's, its `load` is `n`, the installed handler is exactly the
per-request closure of that specialized instance, and validation of the
specialized instance agrees with the parent's — so two specializations
from one parent behave independently. -/
theorem withLoad_field_wise_copy (inst : loadLimiterMiddleware) (n : Nat) :
    inst.clone = inst ∧
    inst.WithLoad n = ({ inst with load := n }).Default ∧
    ({ inst with load := n }).load = n ∧
    ({ inst with load := n }).limiter = inst.limiter ∧
    ({ inst with load := n }).tenantKey = inst.tenantKey ∧
    ({ inst with load := n }).tenantKeyFunc = inst.tenantKeyFunc ∧
    ({ inst with load := n }).acceptHandler = inst.acceptHandler ∧
    ({ inst with load := n }).abortHandler = inst.abortHandler ∧
    ({ inst with load := n }).errorHandler = inst.errorHandler ∧
    validateConfig (some { inst with load := n }) = validateConfig (some inst) ∧
    (∀ hf, inst.WithLoad n = Except.ok hf →
      hf = requestHandler { inst with load := n }) := by
  refine ⟨rfl, rfl, rfl, rfl, rfl, rfl, rfl, rfl, rfl, rfl, ?_⟩
  intro hf hok
  rcases hv : validateConfig (some { inst with load := n }) with _ | e <;>
    rw [show inst.WithLoad n = routeLoadLimiter (some { inst with load := n }) from rfl,
      routeLoadLimiter_some, hv] at hok
  · exact (Except.ok.inj hok).symm
  · cases hok

/-- C9: when the tenant-key function returns the empty string with a nil
error, resolution succeeds and `Submit` is called with the empty string
as tenant key, after which the pipeline proceeds exactly as for any
other key. -/
theorem empty_tenant_key_is_valid (inst : loadLimiterMiddleware) (c : GinContext)
    (submit : LoadLimiter) (f : GinContext → Except GoError String)
    (hl : 0 < inst.load) (hs : inst.limiter = some submit)
    (hf : inst.tenantKeyFunc = some f) (hres : f c = Except.ok "") :
    (effectiveTenantKey inst c).2 = Except.ok "" ∧
    Event.submitted "" inst.load ∈ requestHandler inst c ∧
    requestHandler inst c =
      [Event.tenantKeyFuncCalled, Event.submitted "" inst.load] ++
        (match submit "" inst.load with
         | Except.error err => handleError inst c err
         | Except.ok res =>
           if !res.Accepted then handleRejection inst c res
           else handleAccept inst c res) := by
  have hload : ¬ inst.load ≤ 0 := by omega
  have hetk : effectiveTenantKey inst c = ([Event.tenantKeyFuncCalled], Except.ok "") := by
    simp [effectiveTenantKey, hf, hres]
  have h3 : requestHandler inst c =
      [Event.tenantKeyFuncCalled, Event.submitted "" inst.load] ++
        (match submit "" inst.load with
         | Except.error err => handleError inst c err
         | Except.ok res =>
           if !res.Accepted then handleRejection inst c res
           else handleAccept inst c res) := by
    rcases hsub : submit "" inst.load with err | r
    · simp [requestHandler, hetk, hs, hsub, hload]
    · rcases hacc : r.Accepted with _ | _ <;>
        simp [requestHandler, hetk, hs, hsub, hacc, hload]
  refine ⟨by rw [hetk], ?_, h3⟩
  rw [h3]
  simp

/-- C10: validation treats an empty fixed `TenantKey` as unspecified:
with a limiter present, empty `TenantKey` and nil `TenantKeyFunc` fail
as "neither specified"; empty `TenantKey` with a non-nil `TenantKeyFunc`
passes (it is not "doubly specified"); an empty fixed key alone always
fails installation; and no validated instance has a fixed empty key as
its tenant source. -/
theorem empty_fixed_key_unspecified (inst : loadLimiterMiddleware) :
    (inst.limiter ≠ none → inst.tenantKey = "" → inst.tenantKeyFunc = none →
      validateConfig (some inst) =
        some (GoError.new "one of TenantKey or TenantKeyFunc is required")) ∧
    (inst.tenantKey = "" → inst.tenantKeyFunc = none →
      validateConfig (some inst) ≠ none) ∧
    (inst.limiter ≠ none → inst.tenantKey = "" →
      ∀ f, inst.tenantKeyFunc = some f → validateConfig (some inst) = none) ∧
    (validateConfig (some inst) = none → inst.tenantKeyFunc = none →
      inst.tenantKey ≠ "") := by
  refine ⟨?_, ?_, ?_, ?_⟩
  · intro hL hK hF
    rcases hlim : inst.limiter with _ | L
    · exact absurd hlim hL
    · simp [validateConfig, hlim, hK, hF]
  · intro hK hF
    rcases hlim : inst.limiter with _ | L <;>
      simp [validateConfig, hlim, hK, hF]
  · intro hL hK f hF
    rcases hlim : inst.limiter with _ | L
    · exact absurd hlim hL
    · simp [validateConfig, hlim, hK, hF]
  · intro hv hF hK
    rcases hlim : inst.limiter with _ | L <;>
      simp [validateConfig, hlim, hK, hF] at hv

/-- Witness for C1: on a concrete accepting limiter with no accept
handler, the trace is the markers followed by `Next`. -/
theorem accept_reject_dispatch_witness :
    0 < instW.load ∧
    requestHandler instW ctxW = preEvents instW ctxW ++ [Event.next] :=
  ⟨by decide,
    (accept_reject_dispatch instW ctxW acceptLimiter "tenant-a" ⟨true, false, 0⟩
      (by decide) rfl rfl rfl).2.1 rfl rfl⟩

/-- Witness for C2: on a concrete accepting limiter, the unique outcome
is acceptance and the trace decomposes accordingly. -/
theorem exactly_one_outcome_witness :
    requestHandler instW ctxW = preEvents instW ctxW ++
      dispatchEvents instW ctxW (Outcome.accepted ⟨true, false, 0⟩) := by
  obtain ⟨o, ho, htrace, huniq, hmark⟩ :=
    exactly_one_outcome instW ctxW acceptLimiter (by decide) rfl
  rw [huniq (Outcome.accepted ⟨true, false, 0⟩) rfl]
  exact htrace

/-- Witness for C3: the concrete well-formed instance installs
successfully, yielding its per-request closure. -/
theorem installation_fails_iff_misconfigured_witness :
    instW.Default = Except.ok (requestHandler instW) := by
  obtain ⟨hf, hok⟩ := (installation_fails_iff_misconfigured instW).1.mpr (by
    rintro (h | ⟨h1, h2⟩ | ⟨h1, h2⟩)
    · exact Option.noConfusion h
    · exact absurd h1 (by decide)
    · exact h2 rfl)
  have heq := (installation_fails_iff_misconfigured instW).2.2 hf hok
  rw [heq] at hok
  exact hok

/-- Witness for C4: on the concrete zero-load instance the chain
continues immediately and the tenant-key function is never invoked. -/
theorem zero_load_bypasses_limiter_witness :
    requestHandler instZ ctxW = [Event.next] ∧
    Event.tenantKeyFuncCalled ∉ requestHandler instZ ctxW := by
  have h := (zero_load_bypasses_limiter instZ ctxW cfgW).1 rfl
  exact ⟨h.1, h.2.2⟩

/-- Witness for C5: a concrete failing tenant-key function routes the
request to the Error path. -/
theorem failures_route_to_error_path_witness :
    decision instE ctxW = some (Outcome.errored (GoError.new "boom")) ∧
    requestHandler instE ctxW =
      (effectiveTenantKey instE ctxW).1 ++ handleError instE ctxW (GoError.new "boom") := by
  have h := (failures_route_to_error_path instE ctxW acceptLimiter
    (GoError.new "boom") "x" (by decide)).1 rfl
  exact ⟨h.2.1, h.1⟩

/-- Witness for C6: a concrete rejection with a 5ms retry produces the
429 abort carrying `X-Retry-In: 5`. -/
theorem default_reject_response_witness :
    requestHandler instR ctxW = preEvents instR ctxW ++
      [Event.header "X-Retry-In" "5", Event.abortWithStatus 429] := by
  have h := (default_reject_response instR ctxW rejectLimiter "tenant-a"
    ⟨false, true, 5000000⟩ (by decide) rfl rfl rfl rfl rfl).1 rfl
  rw [h]
  rfl

/-- Witness for C7: a concrete limiter failure with no error handler
panics with the wrapped error. -/
theorem error_handler_contract_witness :
    requestHandler instF ctxW = preEvents instF ctxW ++
      [Event.panicked (GoError.wrapped "error submitting load request: "
        (GoError.new "sync failure"))] :=
  (error_handler_contract instF ctxW failLimiter (GoError.new "sync failure")
    (by decide) rfl rfl).2 rfl

/-- Witness for C8: specializing the concrete instance to load 5. -/
theorem withLoad_field_wise_copy_witness :
    instW.clone = instW ∧
    instW.WithLoad 5 = ({ instW with load := 5 }).Default ∧
    ({ instW with load := 5 }).load = 5 :=
  ⟨(withLoad_field_wise_copy instW 5).1, (withLoad_field_wise_copy instW 5).2.1,
    (withLoad_field_wise_copy instW 5).2.2.1⟩

/-- Witness for C9: a concrete empty-string tenant key resolves
successfully and is submitted to the limiter. -/
theorem empty_tenant_key_is_valid_witness :
    (effectiveTenantKey instK ctxW).2 = Except.ok "" ∧
    Event.submitted "" 3 ∈ requestHandler instK ctxW := by
  have h := empty_tenant_key_is_valid instK ctxW acceptLimiter emptyKeyFn
    (by decide) rfl rfl rfl
  exact ⟨h.1, h.2.1⟩

/-- Witness for C10: the concrete empty-fixed-key instance fails
validation as "neither specified". -/
theorem empty_fixed_key_unspecified_witness :
    validateConfig (some instN) =
      some (GoError.new "one of TenantKey or TenantKeyFunc is required") :=
  (empty_fixed_key_unspecified instN).1 (fun h => Option.noConfusion h) rfl rfl

end GinGoll
